import Mathlib

/-!
Verification development for the `cardata_legacyline` integration
(`custom_components/cardata_legacyline/`): a shallow embedding of the
auth client (`auth.py`), the token manager (`token_manager.py`) and the
vehicle service (`vehicle_manager.py`), together with theorems settling
the specification's claims about them.

Modelling conventions:
- JSON values are modelled by the inductive `JValue`; Python dicts become
  association lists `List (String × α)` with first-match lookup
  (`dictGet`) and in-place update (`dictSet`), matching Python dict
  semantics for unique keys and insertion order.
- Instants in time are integers (seconds).  The source serialises an
  expiry with `datetime.isoformat()` and parses it back with
  `dt_util.parse_datetime`; that external round trip is abstracted away,
  so a stored expiry is `Option Int` (`none` = absent or unparseable).
- Network I/O is made explicit: every HTTP request's outcome (a status
  plus body, a timeout, or a transport error) is a parameter of the
  function that performs it, and each function reports how many network
  requests it issued, so "zero network calls" claims are statable.
-/

/-- JSON values as they appear in request/response payloads. -/
inductive JValue where
  | null : JValue
  | bool (b : Bool) : JValue
  | num (n : Int) : JValue
  | str (s : String) : JValue
  | arr (items : List JValue) : JValue
  | dict (kvs : List (String × JValue)) : JValue

/-- Lookup `d.get(key)` on a Python dict modelled as an association list. -/
def dictGet {α : Type} (kvs : List (String × α)) (key : String) : Option α :=
  match kvs with
  | [] => none
  | (k, v) :: rest => if k = key then some v else dictGet rest key

/-- Assignment `d[key] = v` on a Python dict: replace in place, or append. -/
def dictSet {α : Type} (kvs : List (String × α)) (key : String) (v : α) :
    List (String × α) :=
  match kvs with
  | [] => [(key, v)]
  | (k, w) :: rest =>
    if k = key then (k, v) :: rest else (k, w) :: dictSet rest key v

/-- Python truthiness of a JSON value. -/
def jTruthy : JValue → Bool
  | .null => false
  | .bool b => b
  | .num n => n != 0
  | .str s => !s.isEmpty
  | .arr items => !items.isEmpty
  | .dict kvs => !kvs.isEmpty

/-- Truthiness of an optional JSON value (`None` is falsy). -/
def jTruthyO : Option JValue → Bool
  | some v => jTruthy v
  | none => false

/-- Python `a or b` on optional JSON values. -/
def pyOr (a b : Option JValue) : Option JValue :=
  match a with
  | some v => if jTruthy v then some v else b
  | none => b

/-- Python `a or default` where the default is a value. -/
def pyOrD (a : Option JValue) (default : JValue) : JValue :=
  match a with
  | some v => if jTruthy v then v else default
  | none => default

/-- Truthiness of an optional string. -/
def pyTruthyStrO : Option String → Bool
  | some s => !s.isEmpty
  | none => false

/-- Python truthiness of an optional dict (`if payload:`). -/
def pyTruthyDictO : Option (List (String × JValue)) → Bool
  | some (_ :: _) => true
  | _ => false

/-- Static OAuth client metadata for a ConnectedDrive region
(`RegionConfig` in `auth.py`). -/
structure RegionConfig where
  key : String
  auth_base : String
  api_base : String
  client_id : String
  state : String
  basic_authorization : String

/-- The `row` entry of `REGION_CONFIGS`. -/
def row_region : RegionConfig :=
  { key := "row"
    auth_base := "https://customer.bmwgroup.com/gcdm"
    api_base := "https://cocoapi.bmwgroup.com"
    client_id := "31c357a0-7a1d-4590-aa99-33b97244d048"
    state := "cEG9eLAIi6Nv-aaCAniziE_B6FPoobva3qr5gukilYw"
    basic_authorization :=
      "Basic MzFjMzU3YTAtN2ExZC00NTkwLWFhOTktMzNiOTcyNDRkMDQ4OmMwZTMzOTNkLTcwYTItNGY2Zi05ZDNjLTg1MzBhZjY0ZDU1Mg==" }

/-- The `na` entry of `REGION_CONFIGS`. -/
def na_region : RegionConfig :=
  { key := "na"
    auth_base := "https://login.bmwusa.com/gcdm"
    api_base := "https://cocoapi.bmwgroup.us"
    client_id := "54394a4b-b6c1-45fe-b7b2-8fd3aa9253aa"
    state := "rgastJbZsMtup49-Lp0FMQ"
    basic_authorization :=
      "Basic NTQzOTRhNGItYjZjMS00NWZlLWI3YjItOGZkM2FhOTI1M2FhOmQ5MmYzMWMwLWY1NzktNDRmNS1hNzdkLTk2NmY4ZjAwZTM1MQ==" }

/-- Lookup `REGION_CONFIGS.get(region_key)`: the registry holds exactly the
keys `row` and `na`. -/
def REGION_CONFIGS_get (region_key : String) : Option RegionConfig :=
  if region_key = "row" then some row_region
  else if region_key = "na" then some na_region
  else none

/-- Model of `AuthError` from `auth.py`: a typed reason plus an optional message
(the message keeps the raw JSON value the source would store). -/
structure AuthError where
  reason : String
  message : Option JValue

/-- Model of `AuthResult` from `auth.py`.  `token_expires_at` is the parsed
instant (the ISO-string round trip is abstracted away). -/
structure AuthResult where
  region : RegionConfig
  token_payload : List (String × JValue)
  token_expires_at : Int

/-- The `error` codes `_http_error_to_auth_error` maps to `invalid_auth`
before the captcha special case. -/
def _error_code_set : List String :=
  ["invalid_grant", "invalid_client", "unauthorized", "invalid_request"]

/-- Status-based fallback of `_http_error_to_auth_error`. -/
def _status_fallback (status : Nat) (message : Option JValue) : AuthError :=
  if 400 ≤ status ∧ status < 500 then ⟨"invalid_auth", message⟩
  else ⟨"cannot_connect", message⟩

/-- Model of `_http_error_to_auth_error(status, payload)` from `auth.py`. -/
def _http_error_to_auth_error (status : Nat)
    (payload : Option (List (String × JValue))) : AuthError :=
  if pyTruthyDictO payload then
    let kvs := payload.getD []
    let message := pyOr (dictGet kvs "error_description") (dictGet kvs "error")
    match dictGet kvs "error" with
    | some (.str e) =>
      if _error_code_set.contains e then ⟨"invalid_auth", message⟩
      else if e = "invalid_captcha" then
        ⟨"invalid_auth", some (pyOrD message (.str "Invalid captcha token"))⟩
      else _status_fallback status message
    | _ => _status_fallback status message
  else _status_fallback status none

/-- Body of an HTTP response as seen by `_decode_json_response`:
empty text, text that is not valid JSON, or a JSON object.  (Non-object
JSON bodies never occur on the token endpoint and are outside the
claims' scope.) -/
inductive BodyText where
  | empty : BodyText
  | notJson : BodyText
  | obj (kvs : List (String × JValue)) : BodyText

/-- Outcome of one network request made by the auth client: a response,
a timeout, or a transport-level client error.  The `try`/`except`
blocks of `async_login`/`async_refresh` that turn `asyncio.TimeoutError`
and `aiohttp.ClientError` into `AuthError("cannot_connect")` are folded
into the request model. -/
inductive NetResult where
  | response (status : Nat) (body : BodyText) : NetResult
  | timeout : NetResult
  | clientError (msg : String) : NetResult

/-- Model of `_decode_json_response` from `auth.py`: surface HTTP errors via the
error mapping, otherwise return the decoded object (`{}` for an empty
body, `AuthError("unknown")` for undecodable text). -/
def _decode_json_response (status : Nat) (body : BodyText) :
    Except AuthError (List (String × JValue)) :=
  if 400 ≤ status then
    .error (_http_error_to_auth_error status
      (match body with | .obj kvs => some kvs | _ => none))
  else
    match body with
    | .empty => .ok []
    | .obj kvs => .ok kvs
    | .notJson => .error ⟨"unknown", some (.str "Invalid JSON response")⟩

/-- Model of `_async_request_token` from `auth.py`, with the surrounding
transport-exception handling: decode the response, then treat a payload
carrying a top-level `error` key as `invalid_auth`. -/
def _async_request_token (net : NetResult) :
    Except AuthError (List (String × JValue)) :=
  match net with
  | .response status body =>
    match _decode_json_response status body with
    | .error e => .error e
    | .ok payload =>
      if (dictGet payload "error").isSome then
        .error ⟨"invalid_auth",
          some (pyOrD (dictGet payload "error_description")
            (.str "Token exchange failed"))⟩
      else .ok payload
  | .timeout => .error ⟨"cannot_connect", none⟩
  | .clientError msg => .error ⟨"cannot_connect", some (.str msg)⟩

/-- Model of `_build_auth_result` from `auth.py`: derive the expiry from
`expires_in` minus the 15-minute early-expiry buffer, clamped at `now`,
and stamp the region key into the payload.  Python's
`isinstance(x, (int, float))` also accepts booleans (`bool` is an `int`
subclass), hence the `.bool` branch. -/
def _build_auth_result (region : RegionConfig)
    (token_payload : List (String × JValue)) (now : Int) : AuthResult :=
  let expires_at :=
    match dictGet token_payload "expires_in" with
    | some (.num n) =>
      let e := now + n - 900
      if e ≤ now then now else e
    | some (.bool b) =>
      let e := now + (if b then (1 : Int) else 0) - 900
      if e ≤ now then now else e
    | _ => now
  { region := region
    token_payload := dictSet token_payload "region" (.str region.key)
    token_expires_at := expires_at }

/-- Model of `AuthClient.async_refresh` from `auth.py`: region lookup, a single
token request (counted), error translation, result construction.  The
second component counts network requests issued. -/
def async_refresh (region_key : String) (refresh_token : JValue)
    (net : NetResult) (now : Int) : Except AuthError AuthResult × Nat :=
  match REGION_CONFIGS_get region_key with
  | none =>
    (.error ⟨"unknown", some (.str ("Unsupported region: " ++ region_key))⟩, 0)
  | some region =>
    match _async_request_token net with
    | .error e => (.error e, 1)
    | .ok payload =>
      let _ := refresh_token
      (.ok (_build_auth_result region payload now), 1)

/-- Model of `AuthClient.async_login` from `auth.py`: the region guard runs
before any network request; the three-step handshake
(`_async_login_region`) is abstracted as the parameter `login_region`
(its result already carries its own request count), since the claims
about `async_login` concern only the guard. -/
def async_login
    (login_region : RegionConfig → String → String → String →
      Except AuthError AuthResult × Nat)
    (email password captcha_token region_key : String) :
    Except AuthError AuthResult × Nat :=
  match REGION_CONFIGS_get region_key with
  | none =>
    (.error ⟨"unknown", some (.str ("Unsupported region: " ++ region_key))⟩, 0)
  | some region => login_region region email password captcha_token

/-! ## Token manager (`token_manager.py`) -/

/-- The config-entry data read by the token manager: the stored token
payload (`DATA_TOKEN`), its expiry (`DATA_TOKEN_EXPIRES_AT`, here the
parsed instant: `none` = absent or unparseable), and the region key
(`CONF_REGION`). -/
structure EntryData where
  token : Option (List (String × JValue))
  token_expires_at : Option Int
  region : Option String

/-- Failures surfaced by the token manager: `authFailed` models
`ConfigEntryAuthFailed` (fatal, re-authentication required) and
`notReady` models `ConfigEntryNotReady` (transient, retry later). -/
inductive EntryError where
  | authFailed (msg : JValue) : EntryError
  | notReady (msg : JValue) : EntryError

/-- Evaluation of `dict(data.get(DATA_TOKEN) or dict())`. -/
def token_payload_of (data : EntryData) : List (String × JValue) :=
  data.token.getD []

/-- The cache-hit condition of `TokenManager.async_get_token`: an
`access_token` is present (truthy) and the stored expiry parses and is
strictly in the future. -/
def token_valid (data : EntryData) (now : Int) : Bool :=
  jTruthyO (dictGet (token_payload_of data) "access_token") &&
  (match data.token_expires_at with
   | some t => decide (now < t)
   | none => false)

/-- Model of `TokenManager.async_get_token`: return the cached payload on a
hit; otherwise require refresh credentials, call the auth client's
refresh (whose single network request's outcome is the parameter
`net`), translate its errors, and persist the new record only on
success.  Returns the result, the config-entry data after the call,
and the number of network requests issued. -/
def async_get_token (data : EntryData) (now : Int) (net : NetResult) :
    Except EntryError (List (String × JValue)) × EntryData × Nat :=
  let token_payload := token_payload_of data
  if token_valid data now then (.ok token_payload, data, 0)
  else
    let refresh_token := dictGet token_payload "refresh_token"
    if !jTruthyO refresh_token || !pyTruthyStrO data.region then
      (.error (.authFailed (.str "Re-authentication required")), data, 0)
    else
      match async_refresh (data.region.getD "") (refresh_token.getD .null) net now with
      | (.error err, n) =>
        if err.reason = "invalid_auth" then
          (.error (.authFailed (pyOrD err.message (.str "Authentication failed"))),
            data, n)
        else if err.reason = "cannot_connect" then
          (.error (.notReady
            (pyOrD err.message (.str "Cannot connect to ConnectedDrive"))), data, n)
        else
          (.error (.notReady
            (pyOrD err.message (.str "Unexpected authentication error"))), data, n)
      | (.ok auth_result, n) =>
        let new_payload := auth_result.token_payload
        let new_data : EntryData :=
          { data with
            token := some new_payload
            token_expires_at := some auth_result.token_expires_at }
        (.ok new_payload, new_data, n)

/-- Model of `TokenManager.async_get_access_token`: fetch the payload and
project out a truthy `access_token`, else `ConfigEntryAuthFailed`. -/
def async_get_access_token (data : EntryData) (now : Int) (net : NetResult) :
    Except EntryError JValue × EntryData × Nat :=
  match async_get_token data now net with
  | (.error e, d, n) => (.error e, d, n)
  | (.ok payload, d, n) =>
    let access_token := dictGet payload "access_token"
    if !jTruthyO access_token then
      (.error (.authFailed (.str "Missing access token")), d, n)
    else (.ok (access_token.getD .null), d, n)

/-- Two callers of `async_get_token` during one instant, serialised by
the manager's `asyncio.Lock`: the lock's mutual exclusion means the
second caller runs on the entry data left by the first.  Returns both
results, the final data, and the total number of network requests. -/
def two_callers (data : EntryData) (now : Int) (net1 net2 : NetResult) :
    Except EntryError (List (String × JValue)) ×
    Except EntryError (List (String × JValue)) × EntryData × Nat :=
  let r1 := async_get_token data now net1
  let r2 := async_get_token r1.2.1 now net2
  (r1.1, r2.1, r2.2.1, r1.2.2 + r2.2.2)

/-! ## Vehicle service (`vehicle_manager.py`) -/

/-- Model of `VehicleSummary` from `vehicle_manager.py` (the `raw` dict with its
`enumeration` and `profile` entries is split into two fields). -/
structure VehicleSummary where
  vin : String
  brand : Option String
  model : Option String
  drive_train : Option String
  app_vehicle_type : Option String
  raw_enumeration : List (String × JValue)
  raw_profile : List (String × JValue)

/-- Failures raised by the vehicle service: `authFailed` models
`ConfigEntryAuthFailed`, `notReady` models `ConfigEntryNotReady`, and
`updateFailed` models `UpdateFailed`. -/
inductive FetchError where
  | authFailed (msg : JValue) : FetchError
  | notReady (msg : JValue) : FetchError
  | updateFailed (msg : JValue) : FetchError

/-- Outcome of one HTTP GET made by `VehicleService._async_request`:
a response (status, whether the content type is `application/json`,
the parsed payload, the raw text), a timeout, or a transport error. -/
inductive HttpOutcome where
  | response (status : Nat) (contentTypeJson : Bool) (payload : JValue)
      (text : String) : HttpOutcome
  | timeout : HttpOutcome
  | clientError (msg : String) : HttpOutcome

/-- Model of `VehicleService._async_request`: classify the HTTP outcome.  401 is
fatal auth failure, 5xx transient, other 4xx `UpdateFailed`; a 2xx JSON
response yields its payload, a non-JSON content type `UpdateFailed`;
a timeout is transient, other transport errors `UpdateFailed`. -/
def _async_request (net : HttpOutcome) : Except FetchError JValue :=
  match net with
  | .response status contentTypeJson payload text =>
    if status = 401 then .error (.authFailed (.str "Unauthorized"))
    else if 500 ≤ status then
      .error (.notReady (.str ("Server error: " ++ toString status)))
    else if 400 ≤ status then
      .error (.updateFailed (.str ("HTTP " ++ toString status ++ ": " ++ text)))
    else if contentTypeJson then .ok payload
    else .error (.updateFailed (.str "Unexpected response type"))
  | .timeout => .error (.notReady (.str "Vehicle request timed out"))
  | .clientError msg => .error (.updateFailed (.str msg))

/-- Model of `VehicleService._async_get_vehicle_list`: expect a JSON array and
keep only its dict entries. -/
def _async_get_vehicle_list (net : HttpOutcome) :
    Except FetchError (List (List (String × JValue))) :=
  match _async_request net with
  | .error e => .error e
  | .ok payload =>
    match payload with
    | .arr items =>
      .ok (items.filterMap (fun item =>
        match item with
        | .dict kvs => some kvs
        | _ => none))
    | _ => .error (.updateFailed (.str "Vehicle list payload malformed"))

/-- Model of `VehicleService._async_get_vehicle_profile`: expect a JSON dict. -/
def _async_get_vehicle_profile (net : HttpOutcome) :
    Except FetchError (List (String × JValue)) :=
  match _async_request net with
  | .error e => .error e
  | .ok payload =>
    match payload with
    | .dict kvs => .ok kvs
    | _ => .error (.updateFailed (.str "Vehicle profile payload malformed"))

/-- One iteration of `_extract_vin`'s key loop: a value under `key`
that is a non-empty string. -/
def _usable_vin (data : List (String × JValue)) (key : String) : Option String :=
  match dictGet data key with
  | some (.str v) => if v.isEmpty then none else some v
  | _ => none

/-- Model of `_extract_vin` from `vehicle_manager.py`: try the key variants
`VIN`, `vin`, `Vin` in order. -/
def _extract_vin (data : List (String × JValue)) : Option String :=
  match _usable_vin data "VIN" with
  | some v => some v
  | none =>
    match _usable_vin data "vin" with
    | some v => some v
    | none => _usable_vin data "Vin"

/-- Model of `_as_str` from `vehicle_manager.py`, composed with a dict lookup:
a string value stripped of whitespace, `none` if absent, non-string or
blank. -/
def _as_str (value : Option JValue) : Option String :=
  match value with
  | some (.str s) =>
    let stripped := s.trim
    if stripped.isEmpty then none else some stripped
  | _ => none

/-- Python `a or b` on the outputs of `_as_str` (never `some ""`). -/
def pyOrStr (a b : Option String) : Option String :=
  match a with
  | some s => if s.isEmpty then b else some s
  | none => b

/-- The summary construction inside `VehicleService.async_fetch`'s
loop: brand prefers the list entry then the profile, model prefers the
profile then the list entry; drive train and vehicle type each come
from a single source. -/
def _mk_summary (vin : String) (vehicle profile : List (String × JValue)) :
    VehicleSummary :=
  { vin := vin
    brand := pyOrStr (_as_str (dictGet vehicle "brand"))
      (_as_str (dictGet profile "brand"))
    model := pyOrStr (_as_str (dictGet profile "model"))
      (_as_str (dictGet vehicle "model"))
    drive_train := _as_str (dictGet profile "driveTrain")
    app_vehicle_type := _as_str (dictGet vehicle "appVehicleType")
    raw_enumeration := vehicle
    raw_profile := profile }

/-- The per-vehicle loop of `VehicleService.async_fetch`: skip entries
without a usable VIN; fetch the profile (outcome given by `profiles`),
absorbing only `UpdateFailed` with a logged warning and an empty
profile — `ConfigEntryAuthFailed`/`ConfigEntryNotReady` propagate and
abort the whole fetch.  Returns the summary map and the number of
warnings logged. -/
def _fetch_loop (profiles : String → HttpOutcome)
    (vehicles : List (List (String × JValue)))
    (acc : List (String × VehicleSummary)) (warnings : Nat) :
    Except FetchError (List (String × VehicleSummary) × Nat) :=
  match vehicles with
  | [] => .ok (acc, warnings)
  | vehicle :: rest =>
    match _extract_vin vehicle with
    | none => _fetch_loop profiles rest acc warnings
    | some vin =>
      match _async_get_vehicle_profile (profiles vin) with
      | .ok profile =>
        _fetch_loop profiles rest
          (dictSet acc vin (_mk_summary vin vehicle profile)) warnings
      | .error (.updateFailed _) =>
        _fetch_loop profiles rest
          (dictSet acc vin (_mk_summary vin vehicle [])) (warnings + 1)
      | .error e => .error e

/-- Model of `VehicleService.async_fetch`: region guard, access token via the
token manager (result passed in as `token_result`; its errors
propagate unchanged), vehicle list, then the per-VIN loop.  The header
construction (`_build_headers`, `_generate_mobile_agent`) only shapes
the requests, whose outcomes are already the `list_net`/`profiles`
parameters. -/
def async_fetch (region_key : Option String)
    (token_result : Except EntryError JValue)
    (list_net : HttpOutcome) (profiles : String → HttpOutcome) :
    Except FetchError (List (String × VehicleSummary) × Nat) :=
  match region_key with
  | none => .error (.notReady (.str "Region missing from config entry"))
  | some rk =>
    if rk.isEmpty then .error (.notReady (.str "Region missing from config entry"))
    else
      match REGION_CONFIGS_get rk with
      | none => .error (.notReady (.str ("Unsupported region: " ++ rk)))
      | some _region =>
        match token_result with
        | .error (.authFailed m) => .error (.authFailed m)
        | .error (.notReady m) => .error (.notReady m)
        | .ok _token =>
          match _async_get_vehicle_list list_net with
          | .error e => .error e
          | .ok vehicles => _fetch_loop profiles vehicles [] 0

/-- Python's `isinstance(expires_in, (int, float))` test from
`_build_auth_result` (booleans are `int` subclasses, `None` fails). -/
def is_numeric_expires : Option JValue → Bool
  | some (.num _) => true
  | some (.bool _) => true
  | _ => false

/-! ## Theorems -/

/-- C2 counterexample: for `expires_in = -1` at `now = 0` the computed
expiry is clamped to `now = 0`, which is after `now + E = -1`; so the
claim's "never after `now + E`" fails for a negative `expires_in`. -/
theorem C2_counterexample :
    (_build_auth_result row_region [("expires_in", JValue.num (-1))] 0).token_expires_at
      = 0 ∧
    ¬((_build_auth_result row_region
        [("expires_in", JValue.num (-1))] 0).token_expires_at ≤ 0 + (-1)) :=
  ⟨rfl, by decide⟩

/-- C2 (amended to nonnegative `expires_in`): for every token payload
whose `expires_in` is a number `E ≥ 0`, the computed expiry is
`now + E - 900` clamped below at `now`, hence never before `now` and
never after `now + E`. -/
theorem C2_expiry_clamped_nonneg (region : RegionConfig)
    (payload : List (String × JValue)) (now e : Int)
    (hget : dictGet payload "expires_in" = some (.num e)) (he : 0 ≤ e) :
    (_build_auth_result region payload now).token_expires_at
      = max now (now + e - 900) ∧
    now ≤ (_build_auth_result region payload now).token_expires_at ∧
    (_build_auth_result region payload now).token_expires_at ≤ now + e := by
  unfold _build_auth_result
  simp only [hget]
  rcases le_or_lt (now + e - 900) now with h | h
  · rw [if_pos h, max_eq_left (by omega)]
    exact ⟨rfl, le_refl now, by omega⟩
  · rw [if_neg (by omega), max_eq_right (by omega)]
    exact ⟨rfl, by omega, by omega⟩

/-- C2 witness: instance of `C2_expiry_clamped_nonneg` at
`expires_in = 3600`, `now = 1000`. -/
theorem C2_witness :
    (0 : Int) ≤ 3600 ∧
    ((_build_auth_result row_region
        [("expires_in", JValue.num 3600)] 1000).token_expires_at
      = max 1000 (1000 + 3600 - 900) ∧
    (1000 : Int) ≤ (_build_auth_result row_region
        [("expires_in", JValue.num 3600)] 1000).token_expires_at ∧
    (_build_auth_result row_region
        [("expires_in", JValue.num 3600)] 1000).token_expires_at ≤ 1000 + 3600) :=
  ⟨by decide, C2_expiry_clamped_nonneg row_region _ 1000 3600 rfl (by decide)⟩


/-- C3: the auth client's error mapping sends a JSON body whose
`error` is one of `invalid_grant`, `invalid_client`, `unauthorized`,
`invalid_request`, `invalid_captcha` to `invalid_auth`; with no usable
JSON body a status in `[400, 500)` maps to `invalid_auth`; a 5xx
status with no such `error` code maps to `cannot_connect`, as do
timeouts and transport failures on the token request. -/
theorem C3_error_mapping :
    (∀ (status : Nat) (kvs : List (String × JValue)) (s : String),
      dictGet kvs "error" = some (.str s) →
      s = "invalid_grant" ∨ s = "invalid_client" ∨ s = "unauthorized" ∨
        s = "invalid_request" ∨ s = "invalid_captcha" →
      (_http_error_to_auth_error status (some kvs)).reason = "invalid_auth") ∧
    (∀ (status : Nat) (payload : Option (List (String × JValue))),
      pyTruthyDictO payload = false → 400 ≤ status → status < 500 →
      (_http_error_to_auth_error status payload).reason = "invalid_auth") ∧
    (∀ (status : Nat) (payload : Option (List (String × JValue))),
      500 ≤ status →
      (∀ (kvs : List (String × JValue)) (s : String), payload = some kvs →
        dictGet kvs "error" = some (.str s) →
        ¬(s = "invalid_grant" ∨ s = "invalid_client" ∨ s = "unauthorized" ∨
          s = "invalid_request" ∨ s = "invalid_captcha")) →
      (_http_error_to_auth_error status payload).reason = "cannot_connect") ∧
    _async_request_token .timeout = .error ⟨"cannot_connect", none⟩ ∧
    (∀ msg : String, _async_request_token (.clientError msg) =
      .error ⟨"cannot_connect", some (.str msg)⟩) := by
  refine ⟨?_, ?_, ?_, rfl, fun msg => rfl⟩
  · intro status kvs s hget hs
    have hne : pyTruthyDictO (some kvs) = true := by
      cases kvs with
      | nil => simp [dictGet] at hget
      | cons hd tl => rfl
    rcases hs with h | h | h | h | h <;> subst h <;>
      simp [_http_error_to_auth_error, hne, hget, _error_code_set]
  · intro status payload hfalse h4 h5
    simp [_http_error_to_auth_error, hfalse, _status_fallback, h4, h5]
  · intro status payload h5 hnone
    have hs' : ¬(400 ≤ status ∧ status < 500) := by omega
    match payload with
    | none => simp [_http_error_to_auth_error, pyTruthyDictO, _status_fallback, hs']
    | some [] => simp [_http_error_to_auth_error, pyTruthyDictO, _status_fallback, hs']
    | some (hd :: tl) =>
      simp only [_http_error_to_auth_error, pyTruthyDictO, if_true, Option.getD_some]
      cases hget : dictGet (hd :: tl) "error" with
      | none => simp [_status_fallback, hs']
      | some v =>
        cases v with
        | str s =>
          have hns := hnone (hd :: tl) s rfl hget
          have h1 : s ≠ "invalid_grant" := fun h => hns (Or.inl h)
          have h2 : s ≠ "invalid_client" := fun h => hns (Or.inr (Or.inl h))
          have h3 : s ≠ "unauthorized" := fun h => hns (Or.inr (Or.inr (Or.inl h)))
          have h4 : s ≠ "invalid_request" :=
            fun h => hns (Or.inr (Or.inr (Or.inr (Or.inl h))))
          have h5' : s ≠ "invalid_captcha" :=
            fun h => hns (Or.inr (Or.inr (Or.inr (Or.inr h))))
          simp [_error_code_set, h1, h2, h3, h4, h5', _status_fallback, hs']
        | null => simp [_status_fallback, hs']
        | bool b => simp [_status_fallback, hs']
        | num n => simp [_status_fallback, hs']
        | arr items => simp [_status_fallback, hs']
        | dict kvs => simp [_status_fallback, hs']

/-- C3 witness: instances of `C3_error_mapping` at concrete inputs. -/
theorem C3_witness :
    (_http_error_to_auth_error 403
      (some [("error", JValue.str "invalid_grant")])).reason = "invalid_auth" ∧
    (_http_error_to_auth_error 404 none).reason = "invalid_auth" ∧
    (_http_error_to_auth_error 503 none).reason = "cannot_connect" ∧
    _async_request_token .timeout = .error ⟨"cannot_connect", none⟩ :=
  ⟨C3_error_mapping.1 403 [("error", JValue.str "invalid_grant")] "invalid_grant"
      rfl (Or.inl rfl),
    C3_error_mapping.2.1 404 none rfl (by omega) (by omega),
    C3_error_mapping.2.2.1 503 none (by omega)
      (fun kvs s h _ _ => by simp at h),
    C3_error_mapping.2.2.2.1⟩

/-- C4: with a truthy stored `access_token` and a stored expiry that
parses to a time strictly in the future, `async_get_access_token`
returns the stored access token, leaves the entry data unchanged, and
issues zero network requests (no refresh). -/
theorem C4_cache_hit_no_network (data : EntryData) (now t : Int) (v : JValue)
    (net : NetResult)
    (hv : dictGet (token_payload_of data) "access_token" = some v)
    (htr : jTruthy v = true)
    (hexp : data.token_expires_at = some t) (hfut : now < t) :
    async_get_access_token data now net = (.ok v, data, 0) := by
  have hvalid : token_valid data now = true := by
    simp [token_valid, hv, jTruthyO, htr, hexp, hfut]
  simp [async_get_access_token, async_get_token, hvalid, hv, jTruthyO, htr]

/-- C4 witness: a concrete cached token with future expiry is served
with no refresh even when the network would time out. -/
theorem C4_witness :
    async_get_access_token
      { token := some [("access_token", JValue.str "tok")]
        token_expires_at := some 100
        region := some "row" } 0 .timeout
    = (.ok (JValue.str "tok"),
        { token := some [("access_token", JValue.str "tok")]
          token_expires_at := some 100
          region := some "row" }, 0) :=
  C4_cache_hit_no_network _ 0 100 (JValue.str "tok") .timeout rfl rfl rfl
    (by omega)

/-- C5: when the cached token is not valid, a missing (falsy)
`refresh_token` or region is the fatal re-authentication signal
(`ConfigEntryAuthFailed`); a refresh failing with `invalid_auth` is the
same fatal signal, while a refresh failing with `cannot_connect` or any
other reason is the transient `ConfigEntryNotReady` signal. -/
theorem C5_failure_classification (data : EntryData) (now : Int)
    (net : NetResult) (hmiss : token_valid data now = false) :
    ((jTruthyO (dictGet (token_payload_of data) "refresh_token") = false ∨
      pyTruthyStrO data.region = false) →
      async_get_token data now net
        = (.error (.authFailed (.str "Re-authentication required")), data, 0)) ∧
    (∀ (err : AuthError) (n : Nat),
      jTruthyO (dictGet (token_payload_of data) "refresh_token") = true →
      pyTruthyStrO data.region = true →
      async_refresh (data.region.getD "")
        ((dictGet (token_payload_of data) "refresh_token").getD .null) net now
        = (.error err, n) →
      (err.reason = "invalid_auth" →
        async_get_token data now net
          = (.error (.authFailed (pyOrD err.message (.str "Authentication failed"))),
              data, n)) ∧
      (err.reason ≠ "invalid_auth" →
        ∃ m, async_get_token data now net = (.error (.notReady m), data, n))) := by
  constructor
  · intro hcreds
    rcases hcreds with h | h <;> simp [async_get_token, hmiss, h]
  · intro err n hrt hrg href
    constructor
    · intro hreason
      simp [async_get_token, hmiss, hrt, hrg, href, hreason]
    · intro hreason
      by_cases hcc : err.reason = "cannot_connect"
      · exact ⟨pyOrD err.message (.str "Cannot connect to ConnectedDrive"),
          by simp [async_get_token, hmiss, hrt, hrg, href, hreason, hcc]⟩
      · exact ⟨pyOrD err.message (.str "Unexpected authentication error"),
          by simp [async_get_token, hmiss, hrt, hrg, href, hreason, hcc]⟩

/-- C5 witness: instances of `C5_failure_classification`: a record
with no refresh token is fatal, and a timed-out refresh on a complete
record is transient. -/
theorem C5_witness :
    (async_get_token
      { token := some [], token_expires_at := none, region := some "row" }
      0 .timeout
      = (.error (.authFailed (.str "Re-authentication required")),
          { token := some [], token_expires_at := none, region := some "row" },
          0)) ∧
    ∃ m, async_get_token
      { token := some [("refresh_token", JValue.str "rt")]
        token_expires_at := none, region := some "row" } 0 .timeout
      = (.error (.notReady m),
          { token := some [("refresh_token", JValue.str "rt")]
            token_expires_at := none, region := some "row" }, 1) :=
  ⟨(C5_failure_classification
      { token := some [], token_expires_at := none, region := some "row" }
      0 .timeout rfl).1 (Or.inl rfl),
    ((C5_failure_classification
      { token := some [("refresh_token", JValue.str "rt")]
        token_expires_at := none, region := some "row" }
      0 .timeout rfl).2 ⟨"cannot_connect", none⟩ 1
      rfl rfl rfl).2 (by decide)⟩

/-- C6: whenever `async_get_token` fails (any error, including a
timed-out refresh), the persisted entry data is left unchanged — the
record is only rewritten after a fully successful exchange. -/
theorem C6_failed_refresh_preserves_record (data : EntryData) (now : Int)
    (net : NetResult) (e : EntryError)
    (h : (async_get_token data now net).1 = .error e) :
    (async_get_token data now net).2.1 = data := by
  cases hvalid : token_valid data now with
  | true => simp [async_get_token, hvalid] at h
  | false =>
    cases hcreds : !jTruthyO (dictGet (token_payload_of data) "refresh_token")
        || !pyTruthyStrO data.region with
    | true => simp [async_get_token, hvalid, hcreds]
    | false =>
      rcases href : async_refresh (data.region.getD "")
          ((dictGet (token_payload_of data) "refresh_token").getD .null) net now
          with ⟨res, n⟩
      cases res with
      | error err =>
        by_cases h1 : err.reason = "invalid_auth" <;>
          by_cases h2 : err.reason = "cannot_connect" <;>
          simp [async_get_token, hvalid, hcreds, href, h1, h2]
      | ok ar => simp [async_get_token, hvalid, hcreds, href] at h

/-- C6 witness: a concrete expired record with a timed-out refresh is
left unchanged. -/
theorem C6_witness :
    (async_get_token
      { token := some [("refresh_token", JValue.str "rt")]
        token_expires_at := none, region := some "row" } 0 .timeout).2.1
    = { token := some [("refresh_token", JValue.str "rt")]
        token_expires_at := none, region := some "row" } :=
  C6_failed_refresh_preserves_record _ 0 .timeout
    (.notReady (.str "Cannot connect to ConnectedDrive")) rfl

/-- C7: for any region key other than `row` and `na`, both
`async_login` (regardless of what the handshake would do) and
`async_refresh` fail immediately with the `unknown`-region error and
issue zero network requests. -/
theorem C7_unknown_region_fails_fast (region_key : String)
    (h1 : region_key ≠ "row") (h2 : region_key ≠ "na") :
    (∀ (login_region : RegionConfig → String → String → String →
        Except AuthError AuthResult × Nat) (email password captcha : String),
      async_login login_region email password captcha region_key
        = (.error ⟨"unknown",
            some (.str ("Unsupported region: " ++ region_key))⟩, 0)) ∧
    (∀ (refresh_token : JValue) (net : NetResult) (now : Int),
      async_refresh region_key refresh_token net now
        = (.error ⟨"unknown",
            some (.str ("Unsupported region: " ++ region_key))⟩, 0)) := by
  have hget : REGION_CONFIGS_get region_key = none := by
    simp [REGION_CONFIGS_get, h1, h2]
  exact ⟨fun login_region email password captcha => by
      simp [async_login, hget],
    fun refresh_token net now => by simp [async_refresh, hget]⟩

/-- C7 witness: instance at the concrete region key `xx`. -/
theorem C7_witness :
    async_login (fun region _ _ _ => (.ok ⟨region, [], 0⟩, 3)) "e" "p" "c" "xx"
      = (.error ⟨"unknown", some (.str "Unsupported region: xx")⟩, 0) ∧
    async_refresh "xx" (JValue.str "rt") .timeout 0
      = (.error ⟨"unknown", some (.str "Unsupported region: xx")⟩, 0) :=
  ⟨(C7_unknown_region_fails_fast "xx" (by decide) (by decide)).1
      (fun region _ _ _ => (.ok ⟨region, [], 0⟩, 3)) "e" "p" "c",
    (C7_unknown_region_fails_fast "xx" (by decide) (by decide)).2
      (JValue.str "rt") .timeout 0⟩

/-- C10: when the raw token payload has no `expires_in`, or its value
is not an int or float (e.g. a numeric string), the computed expiry is
exactly `now`; consequently, with that expiry stored, the cache-hit
test fails at every later instant and the next `async_get_token`
attempts a refresh (one network request) instead of serving the
cache. -/
theorem C10_missing_expires_in (region : RegionConfig)
    (payload : List (String × JValue)) (now : Int)
    (h : is_numeric_expires (dictGet payload "expires_in") = false) :
    (_build_auth_result region payload now).token_expires_at = now ∧
    ∀ (data : EntryData) (now2 : Int) (net : NetResult) (cfg : RegionConfig),
      data.token_expires_at
        = some (_build_auth_result region payload now).token_expires_at →
      now ≤ now2 →
      token_valid data now2 = false ∧
      (jTruthyO (dictGet (token_payload_of data) "refresh_token") = true →
       pyTruthyStrO data.region = true →
       REGION_CONFIGS_get (data.region.getD "") = some cfg →
       (async_get_token data now2 net).2.2 = 1) := by
  have hexp : (_build_auth_result region payload now).token_expires_at = now := by
    unfold _build_auth_result
    cases hg : dictGet payload "expires_in" with
    | none => simp
    | some v =>
      cases v with
      | num n => rw [hg] at h; simp [is_numeric_expires] at h
      | bool b => rw [hg] at h; simp [is_numeric_expires] at h
      | null => simp
      | str s => simp
      | arr items => simp
      | dict kvs => simp
  refine ⟨hexp, ?_⟩
  intro data now2 net cfg hstored hle
  rw [hexp] at hstored
  have hvalid : token_valid data now2 = false := by
    unfold token_valid
    rw [hstored]
    have : decide (now2 < now) = false := by simp; omega
    simp [this]
  refine ⟨hvalid, ?_⟩
  intro hrt hrg hcfg
  have hrefresh : ∀ (rt : JValue),
      (async_refresh (data.region.getD "") rt net now2).2 = 1 := by
    intro rt
    unfold async_refresh
    rw [hcfg]
    cases hreq : _async_request_token net <;> simp [hreq]
  cases hres : async_refresh (data.region.getD "")
      ((dictGet (token_payload_of data) "refresh_token").getD .null) net now2
      with
  | mk res n =>
    have hn : n = 1 := by
      have := hrefresh ((dictGet (token_payload_of data) "refresh_token").getD .null)
      rw [hres] at this
      exact this
    subst hn
    cases res with
    | error err =>
      by_cases e1 : err.reason = "invalid_auth" <;>
        by_cases e2 : err.reason = "cannot_connect" <;>
        simp [async_get_token, hvalid, hrt, hrg, hres, e1, e2]
    | ok ar => simp [async_get_token, hvalid, hrt, hrg, hres]

/-- C10 witness: instance with `expires_in` a numeric string, a
stored record carrying the resulting expiry, and a later call that
performs exactly one (timed-out) refresh request. -/
theorem C10_witness :
    (_build_auth_result row_region
      [("expires_in", JValue.str "3600")] 50).token_expires_at = 50 ∧
    (token_valid
      { token := some [("access_token", JValue.str "a"),
                       ("refresh_token", JValue.str "r")]
        token_expires_at := some 50, region := some "row" } 60 = false ∧
     (async_get_token
      { token := some [("access_token", JValue.str "a"),
                       ("refresh_token", JValue.str "r")]
        token_expires_at := some 50, region := some "row" } 60 .timeout).2.2 = 1) := by
  have base := C10_missing_expires_in row_region
    [("expires_in", JValue.str "3600")] 50 rfl
  have inst := base.2
    { token := some [("access_token", JValue.str "a"),
                     ("refresh_token", JValue.str "r")]
      token_expires_at := some 50, region := some "row" }
    60 .timeout row_region (by rw [base.1]) (by omega)
  exact ⟨base.1, inst.1, inst.2 rfl rfl rfl⟩

/-- C1 counterexample: with two usable VINs where the second VIN's
profile request times out, `async_fetch` does not return a map at all:
the timeout raises `ConfigEntryNotReady`, which the per-VIN handler
(which only absorbs `UpdateFailed`) does not catch, so the whole fetch
fails. -/
theorem C1_counterexample :
    async_fetch (some "row") (.ok (.str "tok"))
      (.response 200 true
        (.arr [.dict [("vin", .str "WBA111")], .dict [("vin", .str "WBA222")]]) "")
      (fun vin => if vin = "WBA222" then .timeout
        else .response 200 true (.dict []) "")
    = .error (.notReady (.str "Vehicle request timed out")) := rfl

/-- C1 (amended): for a vehicle list of two entries with usable,
distinct VINs, if the second VIN's profile request fails with an
`UpdateFailed`-class error (a non-401 4xx, a malformed payload, a
non-timeout transport error), the fetch still returns both VINs,
builds the second summary with an empty profile (profile-derived
fields absent), and logs exactly one warning; a profile timeout
instead raises the transient not-ready error and fails the whole
fetch (see `C1_counterexample`). -/
theorem C1_profile_update_failed_absorbed
    (v1 v2 : List (String × JValue)) (a b : String)
    (pa : List (String × JValue)) (m t : JValue)
    (profiles : String → HttpOutcome)
    (h1 : _extract_vin v1 = some a) (h2 : _extract_vin v2 = some b)
    (hne : a ≠ b)
    (hp1 : _async_get_vehicle_profile (profiles a) = .ok pa)
    (hp2 : _async_get_vehicle_profile (profiles b) = .error (.updateFailed m)) :
    async_fetch (some "row") (.ok t)
        (.response 200 true (.arr [.dict v1, .dict v2]) "") profiles
      = .ok ([(a, _mk_summary a v1 pa), (b, _mk_summary b v2 [])], 1) ∧
    (_mk_summary b v2 []).drive_train = none ∧
    (_mk_summary b v2 []).raw_profile = [] := by
  refine ⟨?_, rfl, rfl⟩
  have hfetch : async_fetch (some "row") (.ok t)
      (.response 200 true (.arr [.dict v1, .dict v2]) "") profiles
      = _fetch_loop profiles [v1, v2] [] 0 := rfl
  rw [hfetch]
  simp only [_fetch_loop, h1, h2, hp1, hp2]
  simp [dictSet, hne]

/-- C1 witness: instance of `C1_profile_update_failed_absorbed` where
the second VIN's profile request returns HTTP 404. -/
theorem C1_witness :
    async_fetch (some "row") (.ok (JValue.str "tok"))
        (.response 200 true
          (.arr [.dict [("vin", .str "WBA111")], .dict [("vin", .str "WBA222")]]) "")
        (fun vin => if vin = "WBA222" then .response 404 true .null "nope"
          else .response 200 true (.dict []) "")
      = .ok ([("WBA111", _mk_summary "WBA111" [("vin", JValue.str "WBA111")] []),
              ("WBA222", _mk_summary "WBA222" [("vin", JValue.str "WBA222")] [])],
             1) ∧
    (_mk_summary "WBA222" [("vin", JValue.str "WBA222")] []).drive_train = none ∧
    (_mk_summary "WBA222" [("vin", JValue.str "WBA222")] []).raw_profile = [] :=
  C1_profile_update_failed_absorbed
    [("vin", .str "WBA111")] [("vin", .str "WBA222")] "WBA111" "WBA222"
    [] (.str "HTTP 404: nope") (.str "tok")
    (fun vin => if vin = "WBA222" then .response 404 true .null "nope"
      else .response 200 true (.dict []) "")
    rfl rfl (by decide) rfl rfl

/-- Helper: an entry without a usable VIN is skipped by the fetch loop
without touching the accumulated summaries or warnings. -/
theorem fetch_loop_skips_vinless (profiles : String → HttpOutcome)
    (entry : List (String × JValue)) (hnone : _extract_vin entry = none) :
    ∀ (pre post : List (List (String × JValue)))
      (acc : List (String × VehicleSummary)) (w : Nat),
      _fetch_loop profiles (pre ++ entry :: post) acc w
        = _fetch_loop profiles (pre ++ post) acc w := by
  intro pre
  induction pre with
  | nil =>
    intro post acc w
    simp [_fetch_loop, hnone]
  | cons head tail ih =>
    intro post acc w
    cases h1 : _extract_vin head with
    | none =>
      simp only [List.cons_append, _fetch_loop, h1]
      exact ih post acc w
    | some vin =>
      cases h2 : _async_get_vehicle_profile (profiles vin) with
      | ok profile =>
        simp only [List.cons_append, _fetch_loop, h1, h2]
        exact ih post _ w
      | error e =>
        cases e with
        | updateFailed m =>
          simp only [List.cons_append, _fetch_loop, h1, h2]
          exact ih post _ _
        | authFailed m => simp only [List.cons_append, _fetch_loop, h1, h2]
        | notReady m => simp only [List.cons_append, _fetch_loop, h1, h2]

/-- C8: VIN extraction is case-insensitive over `VIN`, `vin`, `Vin` —
a non-empty string under one of these keys (the others unusable) is
extracted as-is; an entry with no usable value under any of the three
keys extracts nothing; and such an entry contributes no summary to the
fetch result (removing it leaves `async_fetch` unchanged). -/
theorem C8_vin_extraction :
    (∀ (d : List (String × JValue)) (v : String) (k : String),
      (k = "VIN" ∨ k = "vin" ∨ k = "Vin") →
      _usable_vin d k = some v →
      (∀ k2, (k2 = "VIN" ∨ k2 = "vin" ∨ k2 = "Vin") → k2 ≠ k →
        _usable_vin d k2 = none) →
      _extract_vin d = some v) ∧
    (∀ d : List (String × JValue),
      _usable_vin d "VIN" = none → _usable_vin d "vin" = none →
      _usable_vin d "Vin" = none → _extract_vin d = none) ∧
    (∀ (region_key : Option String) (token_result : Except EntryError JValue)
      (text : String) (profiles : String → HttpOutcome)
      (pre post : List JValue) (entry : List (String × JValue)),
      _extract_vin entry = none →
      async_fetch region_key token_result
          (.response 200 true (.arr (pre ++ JValue.dict entry :: post)) text)
          profiles
        = async_fetch region_key token_result
          (.response 200 true (.arr (pre ++ post)) text) profiles) := by
  refine ⟨?_, ?_, ?_⟩
  · intro d v k hk hkv hothers
    rcases hk with h | h | h <;> subst h
    · simp [_extract_vin, hkv]
    · have hV := hothers "VIN" (Or.inl rfl) (by decide)
      simp [_extract_vin, hV, hkv]
    · have hV := hothers "VIN" (Or.inl rfl) (by decide)
      have hv2 := hothers "vin" (Or.inr (Or.inl rfl)) (by decide)
      simp [_extract_vin, hV, hv2, hkv]
  · intro d hV hv hVi
    simp [_extract_vin, hV, hv, hVi]
  · intro region_key token_result text profiles pre post entry hnone
    cases region_key with
    | none => rfl
    | some rk =>
      unfold async_fetch
      cases hemp : rk.isEmpty with
      | true => simp [hemp]
      | false =>
        simp only [hemp, Bool.false_eq_true, if_false]
        cases hcfg : REGION_CONFIGS_get rk with
        | none => rfl
        | some cfg =>
          cases token_result with
          | error e => cases e <;> rfl
          | ok tokv =>
            have hlist : ∀ l : List JValue,
                _async_get_vehicle_list (.response 200 true (.arr l) text)
                  = .ok (l.filterMap fun item =>
                      match item with
                      | .dict kvs => some kvs
                      | _ => none) := fun l => rfl
            simp only [hlist, List.filterMap_append, List.filterMap_cons]
            exact fetch_loop_skips_vinless profiles entry hnone _ _ [] 0

/-- C8 witness: instances of `C8_vin_extraction`: each key variant
extracts the same VIN, a key-less entry extracts nothing, and removing
a VIN-less entry from a concrete fetch leaves the result unchanged. -/
theorem C8_witness :
    _extract_vin [("vin", JValue.str "WBA111")] = some "WBA111" ∧
    _extract_vin [("Vin", JValue.str "WBA111")] = some "WBA111" ∧
    _extract_vin [("name", JValue.str "car")] = none ∧
    async_fetch (some "row") (.ok (JValue.str "tok"))
        (.response 200 true (.arr [JValue.dict [("name", JValue.str "car")]]) "")
        (fun _ => .timeout)
      = async_fetch (some "row") (.ok (JValue.str "tok"))
        (.response 200 true (.arr []) "") (fun _ => .timeout) :=
  ⟨C8_vin_extraction.1 [("vin", JValue.str "WBA111")] "WBA111" "vin"
      (Or.inr (Or.inl rfl)) rfl
      (fun k2 hk2 hne => by
        rcases hk2 with h | h | h <;> subst h <;> first | rfl | exact absurd rfl hne),
    C8_vin_extraction.1 [("Vin", JValue.str "WBA111")] "WBA111" "Vin"
      (Or.inr (Or.inr rfl)) rfl
      (fun k2 hk2 hne => by
        rcases hk2 with h | h | h <;> subst h <;> first | rfl | exact absurd rfl hne),
    C8_vin_extraction.2.1 [("name", JValue.str "car")] rfl rfl rfl,
    C8_vin_extraction.2.2 (some "row") (.ok (JValue.str "tok")) ""
      (fun _ => .timeout) [] [] [("name", JValue.str "car")] rfl⟩

/-- C9 counterexample: two serialised callers on an expired record
whose refresh times out make two refresh network requests, not exactly
one — after the first refresh fails and the lock is released, the
second caller issues its own refresh (the failure is not shared). -/
theorem C9_counterexample :
    (two_callers
      { token := some [("refresh_token", JValue.str "rt")]
        token_expires_at := none, region := some "row" }
      0 .timeout .timeout).2.2.2 = 2 ∧
    (two_callers
      { token := some [("refresh_token", JValue.str "rt")]
        token_expires_at := none, region := some "row" }
      0 .timeout .timeout).2.2.2 ≠ 1 :=
  ⟨rfl, by decide⟩

/-- C9 (amended): the lock serialises the two callers, and when the
first (in-flight) refresh succeeds with a usable access token and a
strictly-future expiry, exactly one refresh network request is made in
total and both callers observe the single refreshed payload; when the
refresh fails, each caller performs its own serialised refresh attempt
(see `C9_counterexample`). -/
theorem C9_single_refresh_on_success (data : EntryData) (now : Int)
    (net1 net2 : NetResult) (ar : AuthResult)
    (hmiss : token_valid data now = false)
    (hrt : jTruthyO (dictGet (token_payload_of data) "refresh_token") = true)
    (hrg : pyTruthyStrO data.region = true)
    (hok : async_refresh (data.region.getD "")
        ((dictGet (token_payload_of data) "refresh_token").getD .null) net1 now
      = (.ok ar, 1))
    (hacc : jTruthyO (dictGet ar.token_payload "access_token") = true)
    (hfut : now < ar.token_expires_at) :
    (two_callers data now net1 net2).2.2.2 = 1 ∧
    (two_callers data now net1 net2).1 = .ok ar.token_payload ∧
    (two_callers data now net1 net2).2.1 = .ok ar.token_payload := by
  have hcall1 : async_get_token data now net1
      = (.ok ar.token_payload,
          { data with
            token := some ar.token_payload
            token_expires_at := some ar.token_expires_at }, 1) := by
    simp [async_get_token, hmiss, hrt, hrg, hok]
  have hvalid2 : token_valid
      { data with
        token := some ar.token_payload
        token_expires_at := some ar.token_expires_at } now = true := by
    simp [token_valid, token_payload_of, hacc, hfut]
  have hcall2 : async_get_token
      { data with
        token := some ar.token_payload
        token_expires_at := some ar.token_expires_at } now net2
      = (.ok ar.token_payload,
          { data with
            token := some ar.token_payload
            token_expires_at := some ar.token_expires_at }, 0) := by
    simp [async_get_token, hvalid2, token_payload_of]
  unfold two_callers
  rw [hcall1]
  simp [hcall2]

/-- C9 witness: instance of `C9_single_refresh_on_success` where the
refresh response carries a fresh token with `expires_in = 3600`. -/
theorem C9_witness :
    (two_callers
      { token := some [("refresh_token", JValue.str "rt")]
        token_expires_at := none, region := some "row" }
      0 (.response 200 (.obj [("access_token", JValue.str "tok2"),
          ("refresh_token", JValue.str "rt2"),
          ("expires_in", JValue.num 3600)])) .timeout).2.2.2 = 1 ∧
    (two_callers
      { token := some [("refresh_token", JValue.str "rt")]
        token_expires_at := none, region := some "row" }
      0 (.response 200 (.obj [("access_token", JValue.str "tok2"),
          ("refresh_token", JValue.str "rt2"),
          ("expires_in", JValue.num 3600)])) .timeout).1
      = .ok [("access_token", JValue.str "tok2"),
             ("refresh_token", JValue.str "rt2"),
             ("expires_in", JValue.num 3600),
             ("region", JValue.str "row")] ∧
    (two_callers
      { token := some [("refresh_token", JValue.str "rt")]
        token_expires_at := none, region := some "row" }
      0 (.response 200 (.obj [("access_token", JValue.str "tok2"),
          ("refresh_token", JValue.str "rt2"),
          ("expires_in", JValue.num 3600)])) .timeout).2.1
      = .ok [("access_token", JValue.str "tok2"),
             ("refresh_token", JValue.str "rt2"),
             ("expires_in", JValue.num 3600),
             ("region", JValue.str "row")] :=
  C9_single_refresh_on_success
    { token := some [("refresh_token", JValue.str "rt")]
      token_expires_at := none, region := some "row" }
    0 (.response 200 (.obj [("access_token", JValue.str "tok2"),
        ("refresh_token", JValue.str "rt2"),
        ("expires_in", JValue.num 3600)])) .timeout
    ⟨row_region,
      [("access_token", JValue.str "tok2"),
       ("refresh_token", JValue.str "rt2"),
       ("expires_in", JValue.num 3600),
       ("region", JValue.str "row")], 2700⟩
    rfl rfl rfl rfl rfl (by decide)
